import Mathlib

/-
Verification development for the cow-solver order/settlement engine.

The Python sources under src/models (order.py, batch_auction.py) are embedded
shallowly below.  Python `Decimal` values are modelled as exact rationals (ℚ);
`Token` identities are modelled as strings.  Fallible Python code (raise /
assert / AttributeError) is modelled with `Except`, one error constructor per
distinct failure site.
-/

namespace CowSolver

/-- Enum for different order matching (order.py, `OrderMatchType`). -/
inductive OrderMatchType
  | lhsFilled
  | rhsFilled
  | bothFilled
deriving DecidableEq, Repr

/-- Order kind (order.py, `OrderKind`): 'sell' or 'buy'. -/
inductive OrderKind
  | sell
  | buy
deriving DecidableEq, Repr

/-- Order class (order.py, `OrderClass`): market, limit or liquidity. -/
inductive OrderClass
  | market
  | limit
  | liquidity
deriving DecidableEq, Repr

/-- Modelled from the spec: token.py is not under src.  A `TokenBalance` is a
pair of an arbitrary-precision decimal amount (here an exact rational) and a
token identity (here a string).  All TokenBalance operations used inside
`Order.execute` are between balances constructed on the same token, so the
embedding of `execute` below operates on the `balance` components directly,
with the (constant) token tags tracked statically. -/
structure TokenBalance where
  balance : ℚ
  token : String
deriving DecidableEq, Repr

/-- Modelled from the spec: exchange_rate.py is not under src.  An
`ExchangeRate` is a pair of two TokenBalances on distinct tokens, both
strictly positive. -/
structure XRate where
  tb1 : TokenBalance
  tb2 : TokenBalance
deriving DecidableEq, Repr

/-- Error values for the execution engine; one constructor per distinct
raise/assert site of order.py (and of the spec-modelled ExchangeRate). -/
inductive ExecError
  | assertInputViolation
  | assertSellPositive
  | assertXrateTolNegative
  | buyLimitExceeded
  | sellLimitExceeded
  | tokenMismatch
  | unknownToken
  | invalidRate
  | limitPriceViolated
deriving DecidableEq, Repr

/-- Modelled from the spec: ExchangeRate construction fails (`InvalidRate`)
unless the two components are on distinct tokens and strictly positive. -/
def XRate.make (tb1 tb2 : TokenBalance) : Except ExecError XRate :=
  if tb1.token = tb2.token ∨ tb1.balance ≤ 0 ∨ tb2.balance ≤ 0 then
    Except.error ExecError.invalidRate
  else
    Except.ok ⟨tb1, tb2⟩

/-- Modelled from the spec: `convert_unit(token)` returns the amount of the
other token per 1 unit of `token`, failing with `UnknownToken` if `token` is
neither of the two referenced tokens. -/
def XRate.convert_unit (x : XRate) (t : String) : Except ExecError ℚ :=
  if t = x.tb1.token then Except.ok (x.tb2.balance / x.tb1.balance)
  else if t = x.tb2.token then Except.ok (x.tb1.balance / x.tb2.balance)
  else Except.error ExecError.unknownToken

/-- The unordered pair of an ExchangeRate's tokens equals `{a, b}`
(order.py line 299 compares `xrate.tokens` with the set of the order's
buy/sell token). -/
def XRate.hasTokens (x : XRate) (a b : String) : Bool :=
  decide ((x.tb1.token = a ∧ x.tb2.token = b) ∨ (x.tb1.token = b ∧ x.tb2.token = a))

/-- Quote reference pair for priceImprovement fee policies (order.py, `Quote`). -/
structure Quote where
  sell_amount : ℚ
  buy_amount : ℚ
deriving DecidableEq, Repr

/-- Fee policy records (order.py, `VolumeFee`/`SurplusFee`/`PriceImprovement`),
as a closed sum; pure data, no behaviour in this core. -/
inductive FeePolicy
  | volume (factor : ℚ)
  | surplus (factor max_volume_factor : ℚ)
  | priceImprovement (factor max_volume_factor : ℚ) (quote : Option Quote)
deriving DecidableEq, Repr

/-- An order's static terms (order.py, `Order` dataclass fields). -/
structure Order where
  order_id : String
  buy_token : String
  sell_token : String
  buy_amount : ℚ
  sell_amount : ℚ
  kind : OrderKind
  partially_fillable : Bool
  class_ : OrderClass
  fee_policies : List FeePolicy
deriving DecidableEq, Repr

/-- The `__post_init__` validation of order.py lines 167-173: distinct tokens
and strictly positive amounts. -/
def Order.validTerms (o : Order) : Prop :=
  o.buy_token ≠ o.sell_token ∧ 0 < o.buy_amount ∧ 0 < o.sell_amount

instance (o : Order) : Decidable o.validTerms := by
  unfold Order.validTerms
  infer_instance

/-- Max limit of the order as an exchange rate (order.py lines 228-234):
`XRate(tb1 = (sell_amount, sell_token), tb2 = (buy_amount, buy_token))`.
The ExchangeRate constructor validates, hence the `Except`. -/
def Order.max_limit (o : Order) : Except ExecError XRate :=
  XRate.make ⟨o.sell_amount, o.sell_token⟩ ⟨o.buy_amount, o.buy_token⟩

/-- Maximum buy bound (order.py lines 236-241): set for buy-kind orders,
`None` for sell-orders. -/
def Order.max_buy_amount (o : Order) : Option TokenBalance :=
  if o.kind = OrderKind.buy then some ⟨o.buy_amount, o.buy_token⟩ else none

/-- Maximum sell bound (order.py lines 243-248): set for sell-kind orders,
`None` for buy-orders. -/
def Order.max_sell_amount (o : Order) : Option TokenBalance :=
  if o.kind = OrderKind.sell then some ⟨o.sell_amount, o.sell_token⟩ else none

/-- order.py lines 259-273: orders overlap iff the token legs are opposite and
`self.buy_amount * other.buy_amount <= other.sell_amount * self.sell_amount`. -/
def Order.overlaps (o other : Order) : Bool :=
  if o.buy_token = other.sell_token ∧ o.sell_token = other.buy_token then
    decide (o.buy_amount * other.buy_amount ≤ other.sell_amount * o.sell_amount)
  else
    false

/-- order.py lines 275-286: classify to what extent two orders match. -/
def Order.match_type (o other : Order) : Option OrderMatchType :=
  if o.overlaps other = false then none
  else if o.buy_amount < other.sell_amount ∧ o.sell_amount < other.buy_amount then
    some OrderMatchType.lhsFilled
  else if o.buy_amount > other.sell_amount ∧ o.sell_amount > other.buy_amount then
    some OrderMatchType.rhsFilled
  else
    some OrderMatchType.bothFilled

/-- order.py lines 288-308: the order's limit price satisfies a given market
rate.  Raises (ValueError) on a token mismatch, asserts `xrate_tol >= 0`,
then accepts iff the market rate per unit of buy token is at most the limit
rate per unit of buy token scaled by `1 + xrate_tol`. -/
def Order.is_executable (o : Order) (xrate : XRate) (xrate_tol : ℚ) :
    Except ExecError Bool :=
  if xrate.hasTokens o.buy_token o.sell_token = false then
    Except.error ExecError.tokenMismatch
  else if xrate_tol < 0 then
    Except.error ExecError.assertXrateTolNegative
  else
    match xrate.convert_unit o.buy_token with
    | Except.error e => Except.error e
    | Except.ok converted_buy =>
      match o.max_limit with
      | Except.error e => Except.error e
      | Except.ok lim =>
        match lim.convert_unit o.buy_token with
        | Except.error e => Except.error e
        | Except.ok converted_sell =>
          Except.ok (decide (converted_buy ≤ converted_sell * (1 + xrate_tol)))

/-- Step (a) of order.py `Order.execute` (lines 343-355): if there is a
maximum buy bound and the proposed buy amount exceeds it by more than the
relative *and* the absolute `amount_tol` tolerance simultaneously, raise;
otherwise clamp the buy amount down with `min`.  All TokenBalance comparisons
here are between balances on the order's buy token. -/
def Order.clampBuy (o : Order) (buy_amount atol : ℚ) : Except ExecError ℚ :=
  match o.max_buy_amount with
  | none => Except.ok buy_amount
  | some xmax =>
    if buy_amount > xmax.balance * (1 + atol) ∧ buy_amount > xmax.balance + atol then
      Except.error ExecError.buyLimitExceeded
    else
      Except.ok (min buy_amount xmax.balance)

/-- Step (b) of order.py `Order.execute` (lines 357-371): symmetric check for
the maximum sell bound; on a violation beyond both tolerances the error is
logged and raised only when `Constants.RAISE_ON_MAX_SELL_AMOUNT_VIOLATION`
holds (modelled from the spec as the explicit `strictSell` flag, since
constants.py is not under src); the `min` clamp is applied unconditionally
once the violation check passes. -/
def Order.clampSell (o : Order) (sell_amount atol : ℚ) (strictSell : Bool) :
    Except ExecError ℚ :=
  match o.max_sell_amount with
  | none => Except.ok sell_amount
  | some ymax =>
    if sell_amount > ymax.balance * (1 + atol) ∧ sell_amount > ymax.balance + atol then
      if strictSell then Except.error ExecError.sellLimitExceeded
      else Except.ok (min sell_amount ymax.balance)
    else
      Except.ok (min sell_amount ymax.balance)

/-- Step (c) of order.py `Order.execute` (lines 373-381): if either amount is
at most `amount_tol` in its own token, set both to zero. -/
def dustZero (buy_amount sell_amount atol : ℚ) : ℚ × ℚ :=
  if buy_amount ≤ atol ∨ sell_amount ≤ atol then (0, 0) else (buy_amount, sell_amount)

/-- Limit price check of order.py `Order.execute` (lines 383-397): if the buy
amount is positive, assert the sell amount positive, build the realized
`XRate(buy_amount, sell_amount)` and check `is_executable`; a violation is
logged and raised only when `Constants.RAISE_ON_LIMIT_XRATE_VIOLATION` holds
(modelled from the spec as the explicit `strictXrate` flag). -/
def Order.checkLimitPrice (o : Order) (buy_amount sell_amount xtol : ℚ)
    (strictXrate : Bool) : Except ExecError Unit :=
  if buy_amount > 0 then
    if sell_amount ≤ 0 then Except.error ExecError.assertSellPositive
    else
      match XRate.make ⟨buy_amount, o.buy_token⟩ ⟨sell_amount, o.sell_token⟩ with
      | Except.error e => Except.error e
      | Except.ok xrate =>
        match o.is_executable xrate xtol with
        | Except.error e => Except.error e
        | Except.ok true => Except.ok ()
        | Except.ok false =>
          if strictXrate then Except.error ExecError.limitPriceViolated
          else Except.ok ()
  else Except.ok ()

/-- order.py `Order.execute` (lines 310-401).  The input asserts of lines
330-333 come first; the token prices are used only in those asserts.  On
success, returns the pair of amounts stored into
`exec_buy_amount`/`exec_sell_amount` (see `OrderState.executeState`). -/
def Order.execute (o : Order) (buy_amount_value sell_amount_value
    buy_token_price sell_token_price atol xtol : ℚ)
    (strictSell strictXrate : Bool) : Except ExecError (ℚ × ℚ) :=
  if buy_amount_value < -atol ∨ sell_amount_value < -atol ∨
      buy_token_price < 0 ∨ sell_token_price < 0 then
    Except.error ExecError.assertInputViolation
  else
    match o.clampBuy buy_amount_value atol with
    | Except.error e => Except.error e
    | Except.ok b1 =>
      match o.clampSell sell_amount_value atol strictSell with
      | Except.error e => Except.error e
      | Except.ok s1 =>
        match o.checkLimitPrice (dustZero b1 s1 atol).1 (dustZero b1 s1 atol).2
            xtol strictXrate with
        | Except.error e => Except.error e
        | Except.ok _ => Except.ok (dustZero b1 s1 atol)

/-- An order together with its mutable execution state (order.py
`__post_init__`: `exec_buy_amount`/`exec_sell_amount`, initially `None`). -/
structure OrderState where
  order : Order
  exec_buy_amount : Option TokenBalance
  exec_sell_amount : Option TokenBalance
deriving DecidableEq, Repr

/-- A freshly constructed order: execution state unset. -/
def OrderState.fresh (o : Order) : OrderState := ⟨o, none, none⟩

/-- `Order.execute` as a state transition: on success the final amounts are
stored (order.py lines 399-401); on an exception nothing is stored. -/
def OrderState.executeState (st : OrderState) (buy_amount_value sell_amount_value
    buy_token_price sell_token_price atol xtol : ℚ)
    (strictSell strictXrate : Bool) : Except ExecError OrderState :=
  match st.order.execute buy_amount_value sell_amount_value buy_token_price
      sell_token_price atol xtol strictSell strictXrate with
  | Except.error e => Except.error e
  | Except.ok p =>
    Except.ok ⟨st.order, some ⟨p.1, st.order.buy_token⟩, some ⟨p.2, st.order.sell_token⟩⟩

/-- order.py `Order.is_executed` (lines 403-405). -/
def OrderState.is_executed (st : OrderState) : Bool :=
  st.exec_buy_amount.isSome && st.exec_sell_amount.isSome

/-- Python-level errors of the batch-auction construction path: ValueError
with a missing-field message, KeyError on a dict subscript, other ValueError
raises, the duplicate-pool ValueError, and AttributeError from calling a
method an object does not have. -/
inductive PyErr
  | missingField (fieldName : String)
  | keyError (key : String)
  | valueError
  | duplicatePoolId (pid : String)
  | attributeError
deriving DecidableEq, Repr

/-- A raw order record as consumed by `Order.from_dict` (order.py lines
175-211).  Each required attribute is optional here, mirroring presence or
absence of the dict key; amounts are carried as exact rationals (the string
decoding via `Decimal(...)` is not modelled), `kind`/`class_` as their raw
strings. -/
structure OrderData where
  uid : Option String
  sell_token : Option String
  buy_token : Option String
  sell_amount : Option ℚ
  buy_amount : Option ℚ
  kind : Option String
  partially_fillable : Option Bool
  class_ : Option String
deriving DecidableEq, Repr

/-- `OrderKind(data['kind'])` (order.py line 205): ValueError on any string
other than 'sell' / 'buy'. -/
def parseOrderKind : String → Except PyErr OrderKind
  | "sell" => Except.ok OrderKind.sell
  | "buy" => Except.ok OrderKind.buy
  | _ => Except.error PyErr.valueError

/-- `OrderClass(data['class_'])` (order.py line 207). -/
def parseOrderClass : String → Except PyErr OrderClass
  | "market" => Except.ok OrderClass.market
  | "limit" => Except.ok OrderClass.limit
  | "liquidity" => Except.ok OrderClass.liquidity
  | _ => Except.error PyErr.valueError

/-- order.py `Order.from_dict` (lines 175-211): check each required attribute
in order, then construct the Order, whose `__post_init__` (lines 163-173)
rejects equal tokens and non-positive amounts.  Fee policies are modelled as
absent (the claims do not touch them). -/
def Order.from_dict (d : OrderData) : Except PyErr Order :=
  match d.uid with
  | none => Except.error (PyErr.missingField "uid")
  | some uid =>
  match d.sell_token with
  | none => Except.error (PyErr.missingField "sell_token")
  | some sellTok =>
  match d.buy_token with
  | none => Except.error (PyErr.missingField "buy_token")
  | some buyTok =>
  match d.sell_amount with
  | none => Except.error (PyErr.missingField "sell_amount")
  | some sellAmt =>
  match d.buy_amount with
  | none => Except.error (PyErr.missingField "buy_amount")
  | some buyAmt =>
  match d.kind with
  | none => Except.error (PyErr.missingField "kind")
  | some kindStr =>
  match d.partially_fillable with
  | none => Except.error (PyErr.missingField "partially_fillable")
  | some pf =>
  match d.class_ with
  | none => Except.error (PyErr.missingField "class_")
  | some classStr =>
  match parseOrderKind kindStr with
  | Except.error e => Except.error e
  | Except.ok kind =>
  match parseOrderClass classStr with
  | Except.error e => Except.error e
  | Except.ok cls =>
  if buyTok = sellTok then Except.error PyErr.valueError
  else if ¬(buyAmt > 0 ∧ sellAmt > 0) then Except.error PyErr.valueError
  else
    Except.ok
      { order_id := uid
        buy_token := buyTok
        sell_token := sellTok
        buy_amount := buyAmt
        sell_amount := sellAmt
        kind := kind
        partially_fillable := pf
        class_ := cls
        fee_policies := [] }

/-- batch_auction.py `load_orders` (lines 168-177): a plain list
comprehension over `Order.from_dict`; note there is NO duplicate-order-id
check and the result is a list, not a dict. -/
def load_orders : List OrderData → Except PyErr (List Order)
  | [] => Except.ok []
  | d :: rest =>
    match Order.from_dict d with
    | Except.error e => Except.error e
    | Except.ok o =>
      match load_orders rest with
      | Except.error e => Except.error e
      | Except.ok os => Except.ok (o :: os)

/-- A raw AMM record; only the `id` key matters to the claims
(batch_auction.py line 195 subscripts `amm_dict['id']`). -/
structure AmmData where
  id : String
deriving DecidableEq, Repr

/-- Modelled from the spec: uniswap.py is not under src.  A liquidity source
carries a stable `pool_id`; its pricing internals are out of scope. -/
structure Uniswap where
  pool_id : String
deriving DecidableEq, Repr

/-- Modelled from the spec: `Uniswap.from_dict` (uniswap.py, not under src)
builds the pool from its record; the `Optional` result is modelled as always
present since the filtering condition is out of scope. -/
def Uniswap.from_dict (pid : String) (_d : AmmData) : Option Uniswap :=
  some ⟨pid⟩

/-- The duplicate-pool-id loop of batch_auction.py `load_amms` (lines
199-204): insert each pool into the results dict (modelled as an
insertion-ordered association list), raising on a duplicate pool id. -/
def insertAmms : List Uniswap → List (String × Uniswap) →
    Except PyErr (List (String × Uniswap))
  | [], acc => Except.ok acc
  | uni :: rest, acc =>
    if acc.any (fun p => decide (p.1 = uni.pool_id)) then
      Except.error (PyErr.duplicatePoolId uni.pool_id)
    else
      insertAmms rest (acc ++ [(uni.pool_id, uni)])

/-- batch_auction.py `load_amms` (lines 180-205). -/
def load_amms (amms : List AmmData) : Except PyErr (List (String × Uniswap)) :=
  insertAmms (amms.filterMap (fun d => Uniswap.from_dict d.id d)) []

/-- Insertion into the token dict (batch_auction.py lines 236-238): a
duplicate token only logs a warning and overwrites the existing entry. -/
def insertTokens : List String → List String → List String
  | [], acc => acc
  | t :: rest, acc =>
    if acc.contains t then insertTokens rest acc
    else insertTokens rest (acc ++ [t])

/-- Lexicographic comparison of token identity strings by character code,
modelling Python's string order for `sorted`. -/
def strLeB : List Char → List Char → Bool
  | [], _ => true
  | _ :: _, [] => false
  | a :: as, b :: bs =>
    if a.toNat < b.toNat then true
    else if a.toNat = b.toNat then strLeB as bs
    else false

/-- Sorted insertion used to model Python's `sorted` over the token keys. -/
def insertSorted (t : String) : List String → List String
  | [] => [t]
  | x :: xs => if strLeB t.data x.data then t :: x :: xs else x :: insertSorted t xs

/-- Sort a list of token identity strings. -/
def sortTokens : List String → List String
  | [] => []
  | x :: xs => insertSorted x (sortTokens xs)

/-- batch_auction.py `load_tokens` (lines 209-240), reduced to the token
keys: the per-token `TokenInfo` payload lives in token.py (not under src)
and is irrelevant to the claims. -/
def load_tokens (ts : List String) : List String :=
  insertTokens (sortTokens ts) []

/-- The dynamic value stored into `BatchAuction._orders`: the `__init__`
annotation declares `dict[str, Order]`, but Python does not enforce
annotations, so the field may also hold a plain list at run time. -/
inductive PyOrders
  | asDict (entries : List (String × Order))
  | asList (orderList : List Order)
deriving DecidableEq, Repr

/-- batch_auction.py `BatchAuction` (lines 22-52). -/
structure BatchAuction where
  name : String
  _id : String
  _tokens : List String
  _orders : PyOrders
  _uniswaps : List (String × Uniswap)
  _effective_gas_price : ℚ
  _deadline : String
deriving DecidableEq, Repr

/-- batch_auction.py `BatchAuction.orders` (lines 94-97):
`list(self._orders.values())`.  A dict value supports `.values()`; a plain
list does not, so the attribute lookup fails with AttributeError. -/
def BatchAuction.orders (b : BatchAuction) : Except PyErr (List Order) :=
  match b._orders with
  | PyOrders.asDict entries => Except.ok (entries.map Prod.snd)
  | PyOrders.asList _ => Except.error PyErr.attributeError

/-- A raw auction instance record for `BatchAuction.from_dict`; optional
fields mirror key presence.  The deadline is kept as its raw string (the
`datetime.strptime` decoding is not modelled; no claim touches it). -/
structure AuctionData where
  id : Option String
  tokens : Option (List String)
  orders : Option (List OrderData)
  liquidity : Option (List AmmData)
  effective_gas_price : Option ℚ
  deadline : Option String
deriving DecidableEq, Repr

/-- batch_auction.py `BatchAuction.from_dict` (lines 55-83): check the five
mandatory keys, load tokens, orders and AMMs, subscript `data['id']` (line
76, KeyError if absent), then call `__init__` — passing the plain list
returned by `load_orders` as the `orders` argument. -/
def BatchAuction.from_dict (data : AuctionData) (name : String) :
    Except PyErr BatchAuction :=
  match data.tokens with
  | none => Except.error (PyErr.missingField "tokens")
  | some tokensRaw =>
  match data.orders with
  | none => Except.error (PyErr.missingField "orders")
  | some ordersRaw =>
  match data.liquidity with
  | none => Except.error (PyErr.missingField "liquidity")
  | some liquidityRaw =>
  match data.effective_gas_price with
  | none => Except.error (PyErr.missingField "effective_gas_price")
  | some gasPrice =>
  match data.deadline with
  | none => Except.error (PyErr.missingField "deadline")
  | some deadline =>
  match load_orders ordersRaw with
  | Except.error e => Except.error e
  | Except.ok orderList =>
  match load_amms liquidityRaw with
  | Except.error e => Except.error e
  | Except.ok uniswaps =>
  match data.id with
  | none => Except.error (PyErr.keyError "id")
  | some theId =>
    Except.ok
      { name := name
        _id := theId
        _tokens := load_tokens tokensRaw
        _orders := PyOrders.asList orderList
        _uniswaps := uniswaps
        _effective_gas_price := gasPrice
        _deadline := deadline }


/-
Helper lemmas shared by the claim theorems.
-/

theorem clampBuy_error_eq {o : Order} {b atol : ℚ} {e : ExecError}
    (h : o.clampBuy b atol = Except.error e) : e = ExecError.buyLimitExceeded := by
  unfold Order.clampBuy at h
  cases hm : o.max_buy_amount with
  | none =>
    rw [hm] at h
    exact absurd h (by simp)
  | some xmax =>
    rw [hm] at h
    dsimp only at h
    by_cases hc : b > xmax.balance * (1 + atol) ∧ b > xmax.balance + atol
    · rw [if_pos hc] at h
      simpa using h.symm
    · rw [if_neg hc] at h
      exact absurd h (by simp)

theorem clampSell_error_eq {o : Order} {s atol : ℚ} {strict : Bool} {e : ExecError}
    (h : o.clampSell s atol strict = Except.error e) :
    e = ExecError.sellLimitExceeded ∧ strict = true := by
  unfold Order.clampSell at h
  cases hm : o.max_sell_amount with
  | none =>
    rw [hm] at h
    exact absurd h (by simp)
  | some ymax =>
    rw [hm] at h
    dsimp only at h
    by_cases hc : s > ymax.balance * (1 + atol) ∧ s > ymax.balance + atol
    · rw [if_pos hc] at h
      cases strict with
      | false => exact absurd h (by simp)
      | true =>
        refine ⟨?_, rfl⟩
        simpa using h.symm
    · rw [if_neg hc] at h
      exact absurd h (by simp)

theorem clampBuy_ok_cases {o : Order} {b atol b1 : ℚ}
    (h : o.clampBuy b atol = Except.ok b1) :
    b1 = b ∨ b1 = min b o.buy_amount := by
  unfold Order.clampBuy at h
  cases hm : o.max_buy_amount with
  | none =>
    rw [hm] at h
    left
    simpa using h.symm
  | some xmax =>
    rw [hm] at h
    dsimp only at h
    have hx : xmax.balance = o.buy_amount := by
      unfold Order.max_buy_amount at hm
      by_cases hk : o.kind = OrderKind.buy
      · rw [if_pos hk] at hm
        cases hm
        rfl
      · rw [if_neg hk] at hm
        cases hm
    by_cases hc : b > xmax.balance * (1 + atol) ∧ b > xmax.balance + atol
    · rw [if_pos hc] at h
      exact absurd h (by simp)
    · rw [if_neg hc] at h
      right
      rw [← hx]
      simpa using h.symm

theorem clampSell_ok_cases {o : Order} {s atol s1 : ℚ} {strict : Bool}
    (h : o.clampSell s atol strict = Except.ok s1) :
    s1 = s ∨ s1 = min s o.sell_amount := by
  unfold Order.clampSell at h
  cases hm : o.max_sell_amount with
  | none =>
    rw [hm] at h
    left
    simpa using h.symm
  | some ymax =>
    rw [hm] at h
    dsimp only at h
    have hy : ymax.balance = o.sell_amount := by
      unfold Order.max_sell_amount at hm
      by_cases hk : o.kind = OrderKind.sell
      · rw [if_pos hk] at hm
        cases hm
        rfl
      · rw [if_neg hk] at hm
        cases hm
    by_cases hc : s > ymax.balance * (1 + atol) ∧ s > ymax.balance + atol
    · rw [if_pos hc] at h
      cases strict with
      | true => exact absurd h (by simp)
      | false =>
        right
        rw [← hy]
        simpa using h.symm
    · rw [if_neg hc] at h
      right
      rw [← hy]
      simpa using h.symm

theorem dustZero_cases (b1 s1 atol : ℚ) :
    dustZero b1 s1 atol = (0, 0) ∨
      (dustZero b1 s1 atol = (b1, s1) ∧ atol < b1 ∧ atol < s1) := by
  unfold dustZero
  by_cases hc : b1 ≤ atol ∨ s1 ≤ atol
  · left
    rw [if_pos hc]
  · right
    rw [if_neg hc]
    push_neg at hc
    exact ⟨rfl, hc.1, hc.2⟩

theorem XRate_make_error {tb1 tb2 : TokenBalance} {e : ExecError}
    (h : XRate.make tb1 tb2 = Except.error e) : e = ExecError.invalidRate := by
  unfold XRate.make at h
  by_cases hc : tb1.token = tb2.token ∨ tb1.balance ≤ 0 ∨ tb2.balance ≤ 0
  · rw [if_pos hc] at h
    simpa using h.symm
  · rw [if_neg hc] at h
    exact absurd h (by simp)

theorem convert_unit_error {x : XRate} {t : String} {e : ExecError}
    (h : x.convert_unit t = Except.error e) : e = ExecError.unknownToken := by
  unfold XRate.convert_unit at h
  by_cases h1 : t = x.tb1.token
  · rw [if_pos h1] at h
    exact absurd h (by simp)
  · rw [if_neg h1] at h
    by_cases h2 : t = x.tb2.token
    · rw [if_pos h2] at h
      exact absurd h (by simp)
    · rw [if_neg h2] at h
      simpa using h.symm

theorem is_executable_error_cases {o : Order} {xr : XRate} {xtol : ℚ} {e : ExecError}
    (h : o.is_executable xr xtol = Except.error e) :
    e = ExecError.tokenMismatch ∨ e = ExecError.assertXrateTolNegative ∨
      e = ExecError.unknownToken ∨ e = ExecError.invalidRate := by
  unfold Order.is_executable at h
  by_cases h1 : xr.hasTokens o.buy_token o.sell_token = false
  · rw [if_pos h1] at h
    left
    simpa using h.symm
  · rw [if_neg h1] at h
    by_cases h2 : xtol < 0
    · rw [if_pos h2] at h
      right; left
      simpa using h.symm
    · rw [if_neg h2] at h
      cases hc : xr.convert_unit o.buy_token with
      | error e2 =>
        rw [hc] at h
        dsimp only at h
        have he : e = e2 := by simpa using h.symm
        right; right; left
        rw [he]
        exact convert_unit_error hc
      | ok cb =>
        rw [hc] at h
        dsimp only at h
        cases hl : o.max_limit with
        | error e2 =>
          rw [hl] at h
          dsimp only at h
          have he : e = e2 := by simpa using h.symm
          right; right; right
          rw [he]
          exact XRate_make_error hl
        | ok lim =>
          rw [hl] at h
          dsimp only at h
          cases hc2 : lim.convert_unit o.buy_token with
          | error e2 =>
            rw [hc2] at h
            dsimp only at h
            have he : e = e2 := by simpa using h.symm
            right; right; left
            rw [he]
            exact convert_unit_error hc2
          | ok cs =>
            rw [hc2] at h
            exact absurd h (by simp)

theorem checkLimitPrice_error_cases {o : Order} {b2 s2 xtol : ℚ} {sx : Bool}
    {e : ExecError} (h : o.checkLimitPrice b2 s2 xtol sx = Except.error e) :
    e = ExecError.assertSellPositive ∨ e = ExecError.invalidRate ∨
      e = ExecError.tokenMismatch ∨ e = ExecError.assertXrateTolNegative ∨
      e = ExecError.unknownToken ∨ e = ExecError.limitPriceViolated := by
  unfold Order.checkLimitPrice at h
  by_cases hb : b2 > 0
  · rw [if_pos hb] at h
    by_cases hs : s2 ≤ 0
    · rw [if_pos hs] at h
      left
      simpa using h.symm
    · rw [if_neg hs] at h
      cases hm : XRate.make ⟨b2, o.buy_token⟩ ⟨s2, o.sell_token⟩ with
      | error e2 =>
        rw [hm] at h
        dsimp only at h
        have he : e = e2 := by simpa using h.symm
        right; left
        rw [he]
        exact XRate_make_error hm
      | ok xr =>
        rw [hm] at h
        dsimp only at h
        cases hie : o.is_executable xr xtol with
        | error e2 =>
          rw [hie] at h
          dsimp only at h
          have he : e = e2 := by simpa using h.symm
          rcases is_executable_error_cases hie with h3 | h3 | h3 | h3
          · right; right; left; rw [he]; exact h3
          · right; right; right; left; rw [he]; exact h3
          · right; right; right; right; left; rw [he]; exact h3
          · right; left; rw [he]; exact h3
        | ok res =>
          rw [hie] at h
          cases res with
          | true => exact absurd h (by simp)
          | false =>
            cases sx with
            | false => exact absurd h (by simp)
            | true =>
              right; right; right; right; right
              simpa using h.symm
  · rw [if_neg hb] at h
    exact absurd h (by simp)

theorem checkLimitPrice_of_nonpos {o : Order} {b2 s2 xtol : ℚ} {sx : Bool}
    (hb : ¬b2 > 0) : o.checkLimitPrice b2 s2 xtol sx = Except.ok () := by
  unfold Order.checkLimitPrice
  rw [if_neg hb]

theorem execute_steps {o : Order} {b s pb ps atol xtol : ℚ} {ss sx : Bool}
    {b1 s1 : ℚ}
    (hb : -atol ≤ b) (hs : -atol ≤ s) (hpb : 0 ≤ pb) (hps : 0 ≤ ps)
    (hcb : o.clampBuy b atol = Except.ok b1)
    (hcs : o.clampSell s atol ss = Except.ok s1) :
    o.execute b s pb ps atol xtol ss sx =
      match o.checkLimitPrice (dustZero b1 s1 atol).1 (dustZero b1 s1 atol).2 xtol sx with
      | Except.error e => Except.error e
      | Except.ok _ => Except.ok (dustZero b1 s1 atol) := by
  unfold Order.execute
  rw [if_neg (by push_neg; exact ⟨hb, hs, hpb, hps⟩), hcb, hcs]

theorem execute_error_steps {o : Order} {b s pb ps atol xtol : ℚ} {ss sx : Bool}
    {e : ExecError}
    (hb : -atol ≤ b) (hs : -atol ≤ s) (hpb : 0 ≤ pb) (hps : 0 ≤ ps)
    (h : o.execute b s pb ps atol xtol ss sx = Except.error e) :
    (o.clampBuy b atol = Except.error e) ∨
    (∃ b1, o.clampBuy b atol = Except.ok b1 ∧ o.clampSell s atol ss = Except.error e) ∨
    (∃ b1 s1, o.clampBuy b atol = Except.ok b1 ∧ o.clampSell s atol ss = Except.ok s1 ∧
      o.checkLimitPrice (dustZero b1 s1 atol).1 (dustZero b1 s1 atol).2 xtol sx =
        Except.error e) := by
  unfold Order.execute at h
  rw [if_neg (by push_neg; exact ⟨hb, hs, hpb, hps⟩)] at h
  cases hcb : o.clampBuy b atol with
  | error e2 =>
    simp only [hcb] at h
    obtain rfl : e2 = e := by simpa using h
    left
    rfl
  | ok b1 =>
    simp only [hcb] at h
    cases hcs : o.clampSell s atol ss with
    | error e2 =>
      simp only [hcs] at h
      obtain rfl : e2 = e := by simpa using h
      right; left
      exact ⟨b1, rfl, rfl⟩
    | ok s1 =>
      simp only [hcs] at h
      cases hcl : o.checkLimitPrice (dustZero b1 s1 atol).1 (dustZero b1 s1 atol).2 xtol sx with
      | error e2 =>
        simp only [hcl] at h
        obtain rfl : e2 = e := by simpa using h
        right; right
        exact ⟨b1, s1, rfl, rfl, hcl⟩
      | ok u =>
        simp only [hcl] at h
        exact absurd h (by simp)

theorem execute_ok_inv {o : Order} {b s pb ps atol xtol : ℚ} {ss sx : Bool}
    {eb es : ℚ} (h : o.execute b s pb ps atol xtol ss sx = Except.ok (eb, es)) :
    ∃ b1 s1, o.clampBuy b atol = Except.ok b1 ∧ o.clampSell s atol ss = Except.ok s1 ∧
      (eb, es) = dustZero b1 s1 atol := by
  unfold Order.execute at h
  by_cases hc : b < -atol ∨ s < -atol ∨ pb < 0 ∨ ps < 0
  · rw [if_pos hc] at h
    exact absurd h (by simp)
  · rw [if_neg hc] at h
    cases hcb : o.clampBuy b atol with
    | error e =>
      rw [hcb] at h
      exact absurd h (by simp)
    | ok b1 =>
      rw [hcb] at h
      dsimp only at h
      cases hcs : o.clampSell s atol ss with
      | error e =>
        rw [hcs] at h
        exact absurd h (by simp)
      | ok s1 =>
        rw [hcs] at h
        dsimp only at h
        refine ⟨b1, s1, rfl, rfl, ?_⟩
        cases hcl : o.checkLimitPrice (dustZero b1 s1 atol).1 (dustZero b1 s1 atol).2 xtol sx with
        | error e =>
          rw [hcl] at h
          exact absurd h (by simp)
        | ok u =>
          rw [hcl] at h
          simpa using h.symm

/-
Claim theorems.
-/

/-- C5: `overlaps(o1, o2)` returns false (it is a total boolean function, no
error possible) whenever `o1.buy_token ≠ o2.sell_token` or
`o1.sell_token ≠ o2.buy_token`; when both token legs align, it returns true
iff `o1.buy_amount * o2.buy_amount ≤ o2.sell_amount * o1.sell_amount`. -/
theorem overlapsCharacterization (o1 o2 : Order) :
    ((o1.buy_token ≠ o2.sell_token ∨ o1.sell_token ≠ o2.buy_token) →
      o1.overlaps o2 = false) ∧
    (o1.buy_token = o2.sell_token → o1.sell_token = o2.buy_token →
      (o1.overlaps o2 = true ↔
        o1.buy_amount * o2.buy_amount ≤ o2.sell_amount * o1.sell_amount)) := by
  constructor
  · intro hne
    unfold Order.overlaps
    rw [if_neg]
    rintro ⟨h1, h2⟩
    rcases hne with hne | hne
    · exact hne h1
    · exact hne h2
  · intro h1 h2
    unfold Order.overlaps
    rw [if_pos ⟨h1, h2⟩]
    simp

def cw5a : Order :=
  { order_id := "w5a", buy_token := "B", sell_token := "S",
    buy_amount := 95, sell_amount := 100, kind := OrderKind.sell,
    partially_fillable := false, class_ := OrderClass.limit, fee_policies := [] }

def cw5b : Order :=
  { order_id := "w5b", buy_token := "S", sell_token := "B",
    buy_amount := 90, sell_amount := 100, kind := OrderKind.sell,
    partially_fillable := false, class_ := OrderClass.limit, fee_policies := [] }

/-- Witness for C5 at concrete orders: aligned legs with compatible prices
overlap; an order never overlaps itself (its legs do not align). -/
theorem overlapsCharacterization_witness :
    cw5a.overlaps cw5b = true ∧ cw5a.overlaps cw5a = false := by
  constructor
  · exact ((overlapsCharacterization cw5a cw5b).2 rfl rfl).mpr (by norm_num [cw5a, cw5b])
  · exact (overlapsCharacterization cw5a cw5a).1 (by left; decide)

/-- C6: `match_type(o1, o2)` is `none` exactly when `overlaps(o1, o2)` is
false; otherwise it returns LhsFilled when `o1.buy_amount < o2.sell_amount`
and `o1.sell_amount < o2.buy_amount`, RhsFilled when both strict inequalities
are reversed, and BothFilled in every remaining case. -/
theorem matchTypeCharacterization (o1 o2 : Order) :
    (o1.match_type o2 = none ↔ o1.overlaps o2 = false) ∧
    (o1.overlaps o2 = true →
      ((o1.buy_amount < o2.sell_amount ∧ o1.sell_amount < o2.buy_amount →
          o1.match_type o2 = some OrderMatchType.lhsFilled) ∧
        (o1.buy_amount > o2.sell_amount ∧ o1.sell_amount > o2.buy_amount →
          o1.match_type o2 = some OrderMatchType.rhsFilled) ∧
        (¬(o1.buy_amount < o2.sell_amount ∧ o1.sell_amount < o2.buy_amount) ∧
          ¬(o1.buy_amount > o2.sell_amount ∧ o1.sell_amount > o2.buy_amount) →
          o1.match_type o2 = some OrderMatchType.bothFilled))) := by
  constructor
  · unfold Order.match_type
    by_cases ho : o1.overlaps o2 = false
    · rw [if_pos ho]
      exact iff_of_true rfl ho
    · rw [if_neg ho]
      constructor
      · intro h
        split_ifs at h
      · intro h
        exact absurd h ho
  · intro hov
    have hno : ¬(o1.overlaps o2 = false) := by simp [hov]
    refine ⟨?_, ?_, ?_⟩
    · intro hlt
      unfold Order.match_type
      rw [if_neg hno, if_pos hlt]
    · intro hgt
      have hnlt : ¬(o1.buy_amount < o2.sell_amount ∧ o1.sell_amount < o2.buy_amount) := by
        rintro ⟨h1, _⟩
        exact absurd hgt.1 (not_lt.mpr h1.le)
      unfold Order.match_type
      rw [if_neg hno, if_neg hnlt, if_pos hgt]
    · intro hboth
      unfold Order.match_type
      rw [if_neg hno, if_neg hboth.1, if_neg hboth.2]

/-- Witness for C6 at concrete orders: `cw5a`/`cw5b` overlap, and since
`cw5a.buy_amount = 95 < 100 = cw5b.sell_amount` and
`cw5a.sell_amount = 100 > 90 = cw5b.buy_amount` fail both strict patterns,
the boundary case BothFilled results; a non-overlapping pair gives none. -/
theorem matchTypeCharacterization_witness :
    cw5a.match_type cw5b = some OrderMatchType.bothFilled ∧
      cw5a.match_type cw5a = none := by
  constructor
  · refine ((matchTypeCharacterization cw5a cw5b).2 ?_).2.2 ?_
    · exact ((overlapsCharacterization cw5a cw5b).2 rfl rfl).mpr (by norm_num [cw5a, cw5b])
    · constructor
      · rintro ⟨_, h2⟩
        norm_num [cw5a, cw5b] at h2
      · rintro ⟨h1, _⟩
        norm_num [cw5a, cw5b] at h1
  · refine (matchTypeCharacterization cw5a cw5a).1.mpr ?_
    exact (overlapsCharacterization cw5a cw5a).1 (by left; decide)

/-- C7: for a validly constructed order (distinct tokens, positive amounts),
`is_executable` at the order's own `max_limit` rate with `xrate_tol = 0`
returns true: the exchange rate implied by the order's bounds equals the
limit exactly, and the boundary is inclusive. -/
theorem maxLimitBoundaryExecutable (o : Order) (xr : XRate)
    (hv : o.buy_token ≠ o.sell_token) (hbpos : 0 < o.buy_amount)
    (hspos : 0 < o.sell_amount) (hx : o.max_limit = Except.ok xr) :
    o.is_executable xr 0 = Except.ok true := by
  have hcond : ¬((⟨o.sell_amount, o.sell_token⟩ : TokenBalance).token =
      (⟨o.buy_amount, o.buy_token⟩ : TokenBalance).token ∨
      (⟨o.sell_amount, o.sell_token⟩ : TokenBalance).balance ≤ 0 ∨
      (⟨o.buy_amount, o.buy_token⟩ : TokenBalance).balance ≤ 0) := by
    push_neg
    exact ⟨fun hc => hv hc.symm, hspos, hbpos⟩
  have hxr : xr = ⟨⟨o.sell_amount, o.sell_token⟩, ⟨o.buy_amount, o.buy_token⟩⟩ := by
    unfold Order.max_limit XRate.make at hx
    rw [if_neg hcond] at hx
    simpa using hx.symm
  have hht : xr.hasTokens o.buy_token o.sell_token = true := by
    rw [hxr]
    unfold XRate.hasTokens
    rw [decide_eq_true_eq]
    exact Or.inr ⟨rfl, rfl⟩
  unfold Order.is_executable
  rw [if_neg (by simp [hht]), if_neg (by norm_num)]
  have hc1 : xr.convert_unit o.buy_token = Except.ok (o.sell_amount / o.buy_amount) := by
    rw [hxr]
    unfold XRate.convert_unit
    rw [if_neg (fun hc => hv hc), if_pos rfl]
  rw [hc1, hx]
  dsimp only
  rw [hc1]
  have : o.sell_amount / o.buy_amount ≤ o.sell_amount / o.buy_amount * (1 + 0) := by
    norm_num
  simp [this]

def cw7 : Order :=
  { order_id := "w7", buy_token := "B", sell_token := "S",
    buy_amount := 95, sell_amount := 100, kind := OrderKind.sell,
    partially_fillable := false, class_ := OrderClass.limit, fee_policies := [] }

def xw7 : XRate := ⟨⟨100, "S"⟩, ⟨95, "B"⟩⟩

/-- Witness for C7 at a concrete order and its own limit rate. -/
theorem maxLimitBoundaryExecutable_witness :
    cw7.is_executable xw7 0 = Except.ok true := by
  refine maxLimitBoundaryExecutable cw7 xw7 (by decide) (by norm_num [cw7])
    (by norm_num [cw7]) ?_
  norm_num [Order.max_limit, XRate.make, cw7, xw7,
    show ¬(("S" : String) = "B") from by decide]

theorem clampBuy_ok_le {o : Order} {b atol b1 : ℚ} {xmax : TokenBalance}
    (hm : o.max_buy_amount = some xmax)
    (h : o.clampBuy b atol = Except.ok b1) : b1 ≤ xmax.balance := by
  unfold Order.clampBuy at h
  rw [hm] at h
  dsimp only at h
  by_cases hc : b > xmax.balance * (1 + atol) ∧ b > xmax.balance + atol
  · rw [if_pos hc] at h
    exact absurd h (by simp)
  · rw [if_neg hc] at h
    have hmin : min b xmax.balance = b1 := by simpa using h
    rw [← hmin]
    exact min_le_right _ _

/-- C2: for a buy-kind order, if the proposed buy amount exceeds
`max_buy_amount` by more than the relative tolerance and by more than the
absolute tolerance simultaneously, `execute` fails with the
buy-limit-exceeded error; otherwise the buy amount is clamped down, so any
committed `exec_buy_amount` is at most the order's `buy_amount`. -/
theorem executeBuyBoundCheck (o : Order) (b s pb ps atol xtol : ℚ) (ss sx : Bool)
    (hk : o.kind = OrderKind.buy) (hpos : 0 < o.buy_amount)
    (hb : -atol ≤ b) (hs : -atol ≤ s) (hpb : 0 ≤ pb) (hps : 0 ≤ ps) :
    (b > o.buy_amount * (1 + atol) ∧ b > o.buy_amount + atol →
      o.execute b s pb ps atol xtol ss sx = Except.error ExecError.buyLimitExceeded) ∧
    (∀ eb es, o.execute b s pb ps atol xtol ss sx = Except.ok (eb, es) →
      eb ≤ o.buy_amount) := by
  have hmb : o.max_buy_amount = some ⟨o.buy_amount, o.buy_token⟩ := by
    unfold Order.max_buy_amount
    rw [if_pos hk]
  constructor
  · intro hviol
    have hcb : o.clampBuy b atol = Except.error ExecError.buyLimitExceeded := by
      unfold Order.clampBuy
      rw [hmb]
      dsimp only
      rw [if_pos hviol]
    unfold Order.execute
    rw [if_neg (by push_neg; exact ⟨hb, hs, hpb, hps⟩), hcb]
  · intro eb es hok
    obtain ⟨b1, s1, hcb, hcs, hd⟩ := execute_ok_inv hok
    have hble : b1 ≤ o.buy_amount := clampBuy_ok_le hmb hcb
    rcases dustZero_cases b1 s1 atol with h0 | ⟨h1, _, _⟩
    · have : (eb, es) = ((0 : ℚ), (0 : ℚ)) := hd.trans h0
      injection this with he _
      rw [he]
      exact hpos.le
    · have : (eb, es) = (b1, s1) := hd.trans h1
      injection this with he _
      rw [he]
      exact hble

def cw2 : Order :=
  { order_id := "w2", buy_token := "B", sell_token := "S",
    buy_amount := 95, sell_amount := 100, kind := OrderKind.buy,
    partially_fillable := false, class_ := OrderClass.limit, fee_policies := [] }

/-- Witness for C2: proposing a buy amount of 200 against a maximum of 95
(beyond both tolerances) makes `execute` fail with the buy-limit error. -/
theorem executeBuyBoundCheck_witness :
    cw2.execute 200 100 0 0 (1/100000000) (1/1000000) true true =
      Except.error ExecError.buyLimitExceeded :=
  (executeBuyBoundCheck cw2 200 100 0 0 (1/100000000) (1/1000000) true true rfl
    (by norm_num [cw2]) (by norm_num) (by norm_num) (by norm_num) (by norm_num)).1
    (by norm_num [cw2])

/-- C3: when both clamping steps succeed and the clamped buy amount or the
clamped sell amount is at most `amount_tol`, `execute` succeeds and commits
both `exec_buy_amount` and `exec_sell_amount` as zero, never only one. -/
theorem executeDustZeroesBoth (st : OrderState) (b s pb ps atol xtol : ℚ)
    (ss sx : Bool) (b1 s1 : ℚ)
    (hb : -atol ≤ b) (hs : -atol ≤ s) (hpb : 0 ≤ pb) (hps : 0 ≤ ps)
    (hcb : st.order.clampBuy b atol = Except.ok b1)
    (hcs : st.order.clampSell s atol ss = Except.ok s1)
    (hdust : b1 ≤ atol ∨ s1 ≤ atol) :
    st.executeState b s pb ps atol xtol ss sx =
      Except.ok ⟨st.order, some ⟨0, st.order.buy_token⟩,
        some ⟨0, st.order.sell_token⟩⟩ := by
  have hd : dustZero b1 s1 atol = (0, 0) := by
    unfold dustZero
    rw [if_pos hdust]
  have hex : st.order.execute b s pb ps atol xtol ss sx = Except.ok (0, 0) := by
    rw [execute_steps hb hs hpb hps hcb hcs, hd]
    dsimp only
    rw [checkLimitPrice_of_nonpos (by norm_num)]
  unfold OrderState.executeState
  rw [hex]

def cw3 : Order :=
  { order_id := "w3", buy_token := "B", sell_token := "S",
    buy_amount := 95, sell_amount := 100, kind := OrderKind.sell,
    partially_fillable := false, class_ := OrderClass.limit, fee_policies := [] }

/-- Witness for C3: a proposed buy amount of 0 (below `amount_tol`) against a
proposed sell amount of 100 commits both execution amounts as zero. -/
theorem executeDustZeroesBoth_witness :
    (OrderState.fresh cw3).executeState 0 100 0 0 (1/100000000) (1/1000000) true true =
      Except.ok ⟨cw3, some ⟨0, "B"⟩, some ⟨0, "S"⟩⟩ := by
  have h := executeDustZeroesBoth (OrderState.fresh cw3) 0 100 0 0 (1/100000000)
    (1/1000000) true true 0 100 (by norm_num) (by norm_num) (by norm_num) (by norm_num)
    (by norm_num [OrderState.fresh, cw3, Order.clampBuy, Order.max_buy_amount,
      show ¬(OrderKind.sell = OrderKind.buy) from by decide])
    (by norm_num [OrderState.fresh, cw3, Order.clampSell, Order.max_sell_amount])
    (by norm_num)
  exact h

/-- C4: for a sell-kind order whose proposed sell amount violates the sell
bound beyond both tolerances, `execute` fails with the sell-limit error
exactly when the `RAISE_ON_MAX_SELL_AMOUNT_VIOLATION` strict flag is set;
with the flag unset, the sell-clamping step proceeds with
`min(sell_amount, max_sell_amount)`. -/
theorem executeSellBoundPolicy (o : Order) (b s pb ps atol xtol : ℚ) (sx : Bool)
    (hk : o.kind = OrderKind.sell)
    (hviol : s > o.sell_amount * (1 + atol) ∧ s > o.sell_amount + atol)
    (hb : -atol ≤ b) (hs : -atol ≤ s) (hpb : 0 ≤ pb) (hps : 0 ≤ ps) :
    (∀ ss : Bool,
      o.execute b s pb ps atol xtol ss sx = Except.error ExecError.sellLimitExceeded ↔
        ss = true) ∧
    o.clampSell s atol false = Except.ok (min s o.sell_amount) := by
  have hms : o.max_sell_amount = some ⟨o.sell_amount, o.sell_token⟩ := by
    unfold Order.max_sell_amount
    rw [if_pos hk]
  have hmb : o.max_buy_amount = none := by
    unfold Order.max_buy_amount
    rw [if_neg (by rw [hk]; decide)]
  have hcb : o.clampBuy b atol = Except.ok b := by
    unfold Order.clampBuy
    rw [hmb]
  constructor
  · intro ss
    cases ss with
    | true =>
      constructor
      · intro _
        rfl
      · intro _
        have hcs : o.clampSell s atol true = Except.error ExecError.sellLimitExceeded := by
          unfold Order.clampSell
          rw [hms]
          dsimp only
          rw [if_pos hviol]
          rfl
        unfold Order.execute
        rw [if_neg (by push_neg; exact ⟨hb, hs, hpb, hps⟩), hcb]
        dsimp only
        rw [hcs]
    | false =>
      constructor
      · intro hcontra
        exfalso
        rcases execute_error_steps hb hs hpb hps hcontra with
          h1 | ⟨b1, _, h2⟩ | ⟨b1, s1, _, _, h3⟩
        · exact absurd (clampBuy_error_eq h1) (by decide)
        · exact absurd (clampSell_error_eq h2).2 (by decide)
        · rcases checkLimitPrice_error_cases h3 with h4 | h4 | h4 | h4 | h4 | h4 <;>
            exact absurd h4 (by decide)
      · intro hcontra
        exact absurd hcontra (by decide)
  · unfold Order.clampSell
    rw [hms]
    dsimp only
    rw [if_pos hviol]
    rfl

def cw4 : Order :=
  { order_id := "w4", buy_token := "B", sell_token := "S",
    buy_amount := 95, sell_amount := 100, kind := OrderKind.sell,
    partially_fillable := false, class_ := OrderClass.limit, fee_policies := [] }

/-- Witness for C4: a proposed sell amount of 200 against a maximum of 100 is
rejected in strict mode and clamped to 100 in lenient mode. -/
theorem executeSellBoundPolicy_witness :
    cw4.execute 95 200 0 0 (1/100000000) (1/1000000) true true =
      Except.error ExecError.sellLimitExceeded ∧
    cw4.clampSell 200 (1/100000000) false = Except.ok 100 := by
  have h := executeSellBoundPolicy cw4 95 200 0 0 (1/100000000) (1/1000000) true rfl
    (by norm_num [cw4]) (by norm_num) (by norm_num) (by norm_num) (by norm_num)
  refine ⟨(h.1 true).mpr rfl, ?_⟩
  have h2 := h.2
  have hmin : min (200 : ℚ) cw4.sell_amount = 100 := by norm_num [cw4]
  rw [hmin] at h2
  exact h2

theorem checkLimitPrice_no_sell_assert {o : Order} {b2 s2 xtol : ℚ} {sx : Bool}
    (himp : 0 < b2 → 0 < s2) :
    o.checkLimitPrice b2 s2 xtol sx ≠ Except.error ExecError.assertSellPositive := by
  unfold Order.checkLimitPrice
  by_cases hb2 : b2 > 0
  · rw [if_pos hb2, if_neg (not_le.mpr (himp hb2))]
    cases hm : XRate.make ⟨b2, o.buy_token⟩ ⟨s2, o.sell_token⟩ with
    | error e2 =>
      dsimp only
      intro hcon
      have he : e2 = ExecError.assertSellPositive := by simpa using hcon
      rw [he] at hm
      exact absurd (XRate_make_error hm) (by decide)
    | ok xr =>
      dsimp only
      cases hie : o.is_executable xr xtol with
      | error e2 =>
        dsimp only
        intro hcon
        have he : e2 = ExecError.assertSellPositive := by simpa using hcon
        rw [he] at hie
        rcases is_executable_error_cases hie with h4 | h4 | h4 | h4 <;>
          exact absurd h4 (by decide)
      | ok res =>
        cases res with
        | true => simp
        | false =>
          cases sx with
          | true =>
            intro hcon
            simp at hcon
          | false => simp
  · rw [if_neg hb2]
    simp

/-- C9: under the input asserts of `execute` (and the order's constructor
invariant `0 < sell_amount`), a strictly positive buy amount after the dust
step always comes with a strictly positive sell amount: the internal
`sell_amount > 0` assertion guarding the limit-price check never fires, and
`execute` never commits a positive `exec_buy_amount` together with a zero
`exec_sell_amount`. -/
theorem executePositiveBuyPositiveSell (o : Order) (b s pb ps atol xtol : ℚ)
    (ss sx : Bool) (hspos : 0 < o.sell_amount)
    (hb : -atol ≤ b) (hs : -atol ≤ s) (hpb : 0 ≤ pb) (hps : 0 ≤ ps) :
    o.execute b s pb ps atol xtol ss sx ≠ Except.error ExecError.assertSellPositive ∧
    (∀ eb es, o.execute b s pb ps atol xtol ss sx = Except.ok (eb, es) →
      0 < eb → 0 < es) := by
  have hs1pos : ∀ s1, o.clampSell s atol ss = Except.ok s1 → atol < s1 → 0 < s1 := by
    intro s1 hcs hats
    rcases le_or_lt 0 atol with hat | hat
    · exact lt_of_le_of_lt hat hats
    · have hsp : 0 < s := lt_of_lt_of_le (by linarith) hs
      rcases clampSell_ok_cases hcs with h | h
      · rw [h]
        exact hsp
      · rw [h]
        exact lt_min hsp hspos
  constructor
  · intro hcontra
    rcases execute_error_steps hb hs hpb hps hcontra with
      h1 | ⟨b1, _, h2⟩ | ⟨b1, s1, hcb, hcs, h3⟩
    · exact absurd (clampBuy_error_eq h1) (by decide)
    · exact absurd (clampSell_error_eq h2).1 (by decide)
    · refine checkLimitPrice_no_sell_assert ?_ h3
      intro hp1
      rcases dustZero_cases b1 s1 atol with h0 | ⟨hdd, _, hs1⟩
      · rw [h0] at hp1
        norm_num at hp1
      · rw [hdd]
        exact hs1pos s1 hcs hs1
  · intro eb es hok hebpos
    obtain ⟨b1, s1, hcb, hcs, hd⟩ := execute_ok_inv hok
    rcases dustZero_cases b1 s1 atol with h0 | ⟨hdd, _, hs1⟩
    · have : (eb, es) = ((0 : ℚ), (0 : ℚ)) := hd.trans h0
      injection this with he _
      rw [he] at hebpos
      norm_num at hebpos
    · have : (eb, es) = (b1, s1) := hd.trans hdd
      injection this with _ he
      rw [he]
      exact hs1pos s1 hcs hs1

def cw9 : Order :=
  { order_id := "w9", buy_token := "B", sell_token := "S",
    buy_amount := 95, sell_amount := 100, kind := OrderKind.sell,
    partially_fillable := false, class_ := OrderClass.limit, fee_policies := [] }

/-- Witness for C9 at a concrete valid order and in-tolerance inputs. -/
theorem executePositiveBuyPositiveSell_witness :
    cw9.execute 95 100 0 0 (1/100000000) (1/1000000) true true ≠
      Except.error ExecError.assertSellPositive :=
  (executePositiveBuyPositiveSell cw9 95 100 0 0 (1/100000000) (1/1000000) true true
    (by norm_num [cw9]) (by norm_num) (by norm_num) (by norm_num) (by norm_num)).1

/-- C8: `executeState` is a pure function of the order's static terms and the
call arguments — it does not read the prior `exec_buy_amount` /
`exec_sell_amount` — and re-executing a successful result with identical
arguments succeeds again and overwrites the state with identical values. -/
theorem executeIdempotent (st st2 : OrderState) (b s pb ps atol xtol : ℚ)
    (ss sx : Bool) (horder : st2.order = st.order) :
    st2.executeState b s pb ps atol xtol ss sx =
      st.executeState b s pb ps atol xtol ss sx ∧
    (∀ st3, st.executeState b s pb ps atol xtol ss sx = Except.ok st3 →
      st3.executeState b s pb ps atol xtol ss sx = Except.ok st3) := by
  have heq : ∀ u1 u2 : OrderState, u1.order = u2.order →
      u1.executeState b s pb ps atol xtol ss sx =
        u2.executeState b s pb ps atol xtol ss sx := by
    intro u1 u2 h12
    unfold OrderState.executeState
    rw [h12]
  constructor
  · exact heq st2 st horder
  · intro st3 h3
    have hords : st3.order = st.order := by
      unfold OrderState.executeState at h3
      cases hex : st.order.execute b s pb ps atol xtol ss sx with
      | error e =>
        rw [hex] at h3
        exact absurd h3 (by simp)
      | ok p =>
        rw [hex] at h3
        have hrec : (⟨st.order, some ⟨p.1, st.order.buy_token⟩,
            some ⟨p.2, st.order.sell_token⟩⟩ : OrderState) = st3 := by
          simpa using h3
        rw [← hrec]
    rw [heq st3 st hords]
    exact h3

def cw8 : Order :=
  { order_id := "w8", buy_token := "B", sell_token := "S",
    buy_amount := 95, sell_amount := 100, kind := OrderKind.sell,
    partially_fillable := false, class_ := OrderClass.limit, fee_policies := [] }

def cw8done : OrderState := ⟨cw8, some ⟨95, "B"⟩, some ⟨100, "S"⟩⟩

/-- Witness for C8: re-executing the state produced by a successful execution
of a fresh order, with the same arguments, reproduces that state. -/
theorem executeIdempotent_witness :
    cw8done.executeState 95 100 0 0 (1/100000000) (1/1000000) true true =
      Except.ok cw8done := by
  refine (executeIdempotent (OrderState.fresh cw8) (OrderState.fresh cw8) 95 100 0 0
    (1/100000000) (1/1000000) true true rfl).2 cw8done ?_
  norm_num [OrderState.executeState, OrderState.fresh, cw8done, Order.execute,
    Order.clampBuy, Order.clampSell, Order.max_buy_amount, Order.max_sell_amount,
    dustZero, Order.checkLimitPrice, XRate.make, Order.is_executable,
    XRate.hasTokens, XRate.convert_unit, Order.max_limit, cw8,
    show ¬(OrderKind.sell = OrderKind.buy) from by decide,
    show ¬(("B" : String) = "S") from by decide,
    show ¬(("S" : String) = "B") from by decide]

def cw1odata : OrderData :=
  { uid := some "o1", sell_token := some "S", buy_token := some "B",
    sell_amount := some 100, buy_amount := some 95, kind := some "sell",
    partially_fillable := some false, class_ := some "limit" }

def cw1input : AuctionData :=
  { id := some "a1", tokens := some ["B", "S"], orders := some [cw1odata, cw1odata],
    liquidity := some [], effective_gas_price := some 15,
    deadline := some "2024-01-01T00:00:00.000000+00:00" }

def cw1order : Order :=
  { order_id := "o1", buy_token := "B", sell_token := "S",
    buy_amount := 95, sell_amount := 100, kind := OrderKind.sell,
    partially_fillable := false, class_ := OrderClass.limit, fee_policies := [] }

def cw1auction : BatchAuction :=
  { name := "batch_auction", _id := "a1", _tokens := ["B", "S"],
    _orders := PyOrders.asList [cw1order, cw1order], _uniswaps := [],
    _effective_gas_price := 15, _deadline := "2024-01-01T00:00:00.000000+00:00" }

/-- C1 (code bug): `cw1input` contains two order records with the same uid
"o1", yet `BatchAuction.from_dict` succeeds — `load_orders` performs no
duplicate-order-id check and returns a plain list holding both records, so no
duplicate-key error can arise during construction. -/
theorem fromDictAcceptsDuplicateOrderIds :
    BatchAuction.from_dict cw1input "batch_auction" = Except.ok cw1auction := by
  norm_num [BatchAuction.from_dict, cw1input, cw1odata, load_orders, Order.from_dict,
    parseOrderKind, parseOrderClass, load_amms, insertAmms, load_tokens,
    insertTokens, sortTokens, insertSorted, strLeB, cw1auction, cw1order,
    show ¬(("B" : String) = "S") from by decide,
    show ¬(("S" : String) = "B") from by decide]

/-- C10: `BatchAuction.from_dict` stores the plain list produced by
`load_orders` into the `_orders` field that `__init__` declares as
`dict[str, Order]`; consequently every auction built via `from_dict` has its
`orders` accessor — which evaluates `self._orders.values()` — fail with an
AttributeError instead of returning the auction's orders. -/
theorem fromDictOrdersAccessorFails (data : AuctionData) (nm : String)
    (ba : BatchAuction) (h : BatchAuction.from_dict data nm = Except.ok ba) :
    ba.orders = Except.error PyErr.attributeError := by
  unfold BatchAuction.from_dict at h
  cases h1 : data.tokens with
  | none =>
    simp only [h1] at h
    exact absurd h (by simp)
  | some tokensRaw =>
  simp only [h1] at h
  cases h2 : data.orders with
  | none =>
    simp only [h2] at h
    exact absurd h (by simp)
  | some ordersRaw =>
  simp only [h2] at h
  cases h3 : data.liquidity with
  | none =>
    simp only [h3] at h
    exact absurd h (by simp)
  | some liquidityRaw =>
  simp only [h3] at h
  cases h4 : data.effective_gas_price with
  | none =>
    simp only [h4] at h
    exact absurd h (by simp)
  | some gasPrice =>
  simp only [h4] at h
  cases h5 : data.deadline with
  | none =>
    simp only [h5] at h
    exact absurd h (by simp)
  | some deadline =>
  simp only [h5] at h
  cases h6 : load_orders ordersRaw with
  | error e =>
    simp only [h6] at h
    exact absurd h (by simp)
  | ok orderList =>
  simp only [h6] at h
  cases h7 : load_amms liquidityRaw with
  | error e =>
    simp only [h7] at h
    exact absurd h (by simp)
  | ok uniswaps =>
  simp only [h7] at h
  cases h8 : data.id with
  | none =>
    simp only [h8] at h
    exact absurd h (by simp)
  | some theId =>
  simp only [h8] at h
  injection h with h9
  rw [← h9]
  rfl

def c10odata : OrderData :=
  { uid := some "q1", sell_token := some "S", buy_token := some "B",
    sell_amount := some 100, buy_amount := some 95, kind := some "sell",
    partially_fillable := some false, class_ := some "limit" }

def c10input : AuctionData :=
  { id := some "a2", tokens := some ["B", "S"], orders := some [c10odata],
    liquidity := some [], effective_gas_price := some 15,
    deadline := some "2024-01-01T00:00:00.000000+00:00" }

def c10order : Order :=
  { order_id := "q1", buy_token := "B", sell_token := "S",
    buy_amount := 95, sell_amount := 100, kind := OrderKind.sell,
    partially_fillable := false, class_ := OrderClass.limit, fee_policies := [] }

def c10auction : BatchAuction :=
  { name := "batch_auction", _id := "a2", _tokens := ["B", "S"],
    _orders := PyOrders.asList [c10order], _uniswaps := [],
    _effective_gas_price := 15, _deadline := "2024-01-01T00:00:00.000000+00:00" }

/-- Witness for C10: a concrete auction built by `from_dict` whose `orders`
accessor fails with the AttributeError. -/
theorem fromDictOrdersAccessorFails_witness :
    c10auction.orders = Except.error PyErr.attributeError := by
  refine fromDictOrdersAccessorFails c10input "batch_auction" c10auction ?_
  norm_num [BatchAuction.from_dict, c10input, c10odata, load_orders, Order.from_dict,
    parseOrderKind, parseOrderClass, load_amms, insertAmms, load_tokens,
    insertTokens, sortTokens, insertSorted, strLeB, c10auction, c10order,
    show ¬(("B" : String) = "S") from by decide,
    show ¬(("S" : String) = "B") from by decide]

end CowSolver
